import Mathlib

/-!
Shallow embedding of the paginated list-resource protocol of the Service Bus
management client (`listSynonymMaps.js`): continuation-token derivation from a
next-link URL, page-mode (`byPage`) and flat-mode iteration, response decoding
(`buildListQueuesResponse`, `buildListRulesResponse`), the single-entity fetch
(`getResource`), the `*Exists` helpers and the `update*` argument validation.

JavaScript values are embedded explicitly: a JS number is `Option Int` with
`none` standing for `NaN` (fractional numbers never arise on the modelled
paths), a possibly-undefined string is `Option String`, and errors are the
`JsError` inductive (a thrown `RestError`, plain `Error` or `TypeError`).
Async generators are embedded as fuel-indexed loops: the fuel is the number of
pages the consumer pulls, so exhausted fuel means the consumer stopped
consuming, not an error.  Each listing loop also returns the list of `Call`s
(the `$skip`/`$top` query parameters) it sent to the transport, so that
theorems can speak about which fetches were issued.

Out of scope, as in the spec: the HTTP transport itself (a deterministic
function from a `Call` to a response), authentication, XML/Atom entity
mapping (the per-record decoders `buildQueue`/`buildRule` are abstract
`R → Option Q` parameters), logging, and percent-decoding inside URLs.
-/

namespace SB

/-- A thrown JavaScript error: `RestError (message, code, statusCode)` from the
SDK, a plain `Error`, or a `TypeError`.  The `stripRequest`/`stripResponse`
diagnostic payloads carried by a `RestError` are I/O objects outside the
embedding. -/
inductive JsError where
  | restError (message : String) (code : String) (statusCode : Nat)
  | jsError (message : String)
  | typeError (message : String)
deriving DecidableEq, Repr

/-- The `code` property of a caught error: present on a `RestError`, undefined
(`none`) on a plain `Error` or `TypeError`. -/
def jsErrorCode : JsError → Option String
  | .restError _ code _ => some code
  | _ => none

/-- RestError.PARSE_ERROR from `@azure/core-http`. -/
def PARSE_ERROR : String := "PARSE_ERROR"

/-- The parsed body of an HTTP response as the decoding code discriminates it:
`undef` (undefined or null body), a non-array object, or an array of raw
records.  A JS array can carry extra properties, so the array case holds the
optional `nextLink` property that list responses use. -/
inductive Body (R : Type) where
  | undef
  | obj (nextLink : Option String)
  | arr (records : List R) (nextLink : Option String)
deriving DecidableEq

/-- The slice of `HttpOperationResponse` the modelled code reads: the parsed
body and the HTTP status. -/
structure HttpOperationResponse (R : Type) where
  parsedBody : Body R
  status : Nat
deriving DecidableEq

/-- The query parameters of one list request as `listResources` sends them:
the optional `$skip` and `$top` values. -/
structure Call where
  skipParam : Option String
  topParam : Option String
deriving DecidableEq, Repr

/-- Digits of a decimal literal to its value; `none` when the list is empty or
contains a non-digit. -/
def digitsVal (cs : List Char) : Option Nat :=
  match cs with
  | [] => none
  | _ =>
    cs.foldl
      (fun acc c =>
        match acc with
        | none => none
        | some a => if c.isDigit then some (a * 10 + (c.toNat - 48)) else none)
      (some 0)

/-- Leading and trailing whitespace removed, as `Number()` does before
parsing. -/
def trimChars (cs : List Char) : List Char :=
  ((cs.dropWhile Char.isWhitespace).reverse.dropWhile Char.isWhitespace).reverse

/-- The JS `Number()` conversion on a string, restricted to the forms the
modelled code exercises: after trimming, the empty string is `0`, an optional
sign followed by decimal digits is that integer, and anything else is `NaN`
(`none`).  Hexadecimal, fractional and exponent literals are outside the
modelled domain. -/
def jsNumberOfString (s : String) : Option Int :=
  match trimChars s.data with
  | [] => some 0
  | c :: rest =>
    if c = '-' then (digitsVal rest).map (fun n => -(n : Int))
    else if c = '+' then (digitsVal rest).map (fun n => (n : Int))
    else (digitsVal (c :: rest)).map (fun n => (n : Int))

/-- Source `Number(marker)` where `marker : string | undefined`: `Number(undefined)`
is `NaN`. -/
def jsNumberOfMarker : Option String → Option Int
  | none => none
  | some s => jsNumberOfString s

/-- Truthiness of a JS number (`Option Int`, `none` = `NaN`): `0` and `NaN`
are falsy. -/
def jsNumTruthy : Option Int → Bool
  | none => false
  | some n => n != 0

/-- Truthiness of a `string | undefined` value: `undefined` and `""` are
falsy. -/
def jsStrOptTruthy : Option String → Bool
  | none => false
  | some s => s != ""

/-- Constants.XML_METADATA_MARKER.  Modelled from the spec: `./util/constants`
is not among the sources; the spec's wire contract names the query parameters
`$skip` and `$top`, and the code reads the marker from
`XML_METADATA_MARKER + "skip"`, so the marker is `"$"`. -/
def XML_METADATA_MARKER : String := "$"

/-- Everything after the first occurrence of `sep`, or `none` when `sep` does
not occur. -/
def afterChar (sep : Char) : List Char → Option (List Char)
  | [] => none
  | c :: cs => if c = sep then some cs else afterChar sep cs

/-- Split on every occurrence of `sep`; always at least one group. -/
def splitOnChar (sep : Char) : List Char → List (List Char)
  | [] => [[]]
  | c :: cs =>
    let r := splitOnChar sep cs
    if c = sep then [] :: r
    else
      match r with
      | [] => [[c]]
      | g :: gs => (c :: g) :: gs

/-- Modelled from the spec: `parseURL` comes from `./util/parseUrl`, which is
not among the sources.  `parseURL(url).searchParams.get(key)` returns the
first value of query parameter `key` in `url`: the query string is what
follows the first `?` (up to a `#` fragment), parameters are separated by `&`,
a parameter's key is what precedes its first `=` and its value what follows it
(empty when there is no `=`).  Percent-decoding is not modelled.  The URL is
assumed parseable (next links are absolute URLs issued by the service), so the
throwing branch of `getMarkerFromNextLinkUrl` is not reachable in the model. -/
def searchParamsGet (url : String) (key : String) : Option String :=
  match afterChar '?' url.data with
  | none => none
  | some q =>
    let query := q.takeWhile (fun c => c != '#')
    ((splitOnChar '&' query).filterMap
        (fun kv =>
          match afterChar '=' kv with
          | some v =>
            if kv.takeWhile (fun c => c != '=') = key.data then some (String.mk v) else none
          | none => if kv = key.data then some "" else none)).head?

/-- Source `getMarkerFromNextLinkUrl`: `undefined` for a missing or empty URL, else
the `$skip` query parameter of the next-link URL. -/
def getMarkerFromNextLinkUrl : Option String → Option String
  | none => none
  | some url =>
    if url = "" then none
    else searchParamsGet url (XML_METADATA_MARKER ++ "skip")

/-- Source `EntitiesResponse<T>`: the decoded entities of one page (a JS array) with
the `continuationToken` property attached; the `_response` envelope is dropped
from the model. -/
structure EntitiesResponse (Q : Type) where
  entities : List Q
  continuationToken : Option String
deriving DecidableEq

/-- Message of the parse RestError thrown by `buildListQueuesResponse`. -/
def listQueuesParseMsg : String :=
  "Error occurred while parsing the response body - cannot form a list of queues using the response from the service."

/-- Message of the parse RestError thrown by `buildListRulesResponse`. -/
def listRulesParseMsg : String :=
  "Error occurred while parsing the response body - cannot form a list of rules using the response from the service."

/-- Source `buildListQueuesResponse`: reads `parsedBody.nextLink` (throws inside the
try block when the body is undefined), requires the body to be an array
(`Array.isArray`, else a TypeError is thrown inside the try block), then
decodes each raw record with `buildQueue`, keeping only the records the
decoder accepts, in order.  Every throw inside the try block is caught and
rethrown as a `RestError` with code `PARSE_ERROR` carrying the response's
status. -/
def buildListQueuesResponse {R Q : Type} (buildQueue : R → Option Q)
    (response : HttpOperationResponse R) : Except JsError (EntitiesResponse Q) :=
  match response.parsedBody with
  | .undef => .error (.restError listQueuesParseMsg PARSE_ERROR response.status)
  | .obj _ => .error (.restError listQueuesParseMsg PARSE_ERROR response.status)
  | .arr records nextLink =>
    let nextMarker := getMarkerFromNextLinkUrl nextLink
    let queues :=
      records.foldl
        (fun acc r =>
          match buildQueue r with
          | some q => acc ++ [q]
          | none => acc)
        []
    .ok { entities := queues, continuationToken := nextMarker }

/-- Source `buildListRulesResponse`: same structure as `buildListQueuesResponse`
with the rule decoder and the rules parse message. -/
def buildListRulesResponse {R Q : Type} (buildRule : R → Option Q)
    (response : HttpOperationResponse R) : Except JsError (EntitiesResponse Q) :=
  match response.parsedBody with
  | .undef => .error (.restError listRulesParseMsg PARSE_ERROR response.status)
  | .obj _ => .error (.restError listRulesParseMsg PARSE_ERROR response.status)
  | .arr records nextLink =>
    let nextMarker := getMarkerFromNextLinkUrl nextLink
    let rules :=
      records.foldl
        (fun acc r =>
          match buildRule r with
          | some q => acc ++ [q]
          | none => acc)
        []
    .ok { entities := rules, continuationToken := nextMarker }

/-- Message of the not-found RestError thrown by `getResource`. -/
def entityNotFoundMsg (name : String) : String :=
  "The messaging entity \"" ++ name ++ "\" being requested cannot be found."

/-- Source `getResource`: after the transport returns `response`, a body that is
undefined (or null, by loose equality) or an empty array is promoted to a
`RestError` with code `MessageEntityNotFoundError` and status 404; any other
body is returned unchanged. -/
def getResource {R : Type} (name : String) (response : HttpOperationResponse R) :
    Except JsError (HttpOperationResponse R) :=
  match response.parsedBody with
  | .undef => .error (.restError (entityNotFoundMsg name) "MessageEntityNotFoundError" 404)
  | .arr [] _ => .error (.restError (entityNotFoundMsg name) "MessageEntityNotFoundError" 404)
  | _ => .ok response

/-- A JS number rendered as a query-parameter value when truthy
(`if (options.skip) queryParams["..."] = options.skip.toString()`), absent
otherwise. -/
def queryParamOfJsNum : Option Int → Option String
  | none => none
  | some n => if n = 0 then none else some (toString n)

/-- The `Call` that `listResources` sends for the given `skip` and `maxCount`
options: each is added as a query parameter only when truthy. -/
def listCall (skip maxCount : Option Int) : Call :=
  { skipParam := queryParamOfJsNum skip, topParam := queryParamOfJsNum maxCount }

/-- Source `listResources`: build the `$skip`/`$top` query parameters and perform one
transport round trip.  The transport (`executeAtomXmlOperation` and below) is
the abstract deterministic `backend`. -/
def listResources {R : Type} (backend : Call → HttpOperationResponse R)
    (skip maxCount : Option Int) : HttpOperationResponse R :=
  backend (listCall skip maxCount)

/-- Source `listQueues`: one list request decoded by `buildListQueuesResponse`. -/
def listQueues {R Q : Type} (backend : Call → HttpOperationResponse R)
    (buildQueue : R → Option Q) (skip maxCount : Option Int) :
    Except JsError (EntitiesResponse Q) :=
  buildListQueuesResponse buildQueue (listResources backend skip maxCount)

/-- Source `listQueuesPage`: the async generator's do/while loop.  Each pulled page
fetches with `skip = Number(marker)`, yields the page, and continues while the
returned `continuationToken` is truthy.  The fuel is how many pages the
consumer pulls (the generator is lazy); the second component lists the calls
sent to the transport. -/
def listQueuesPage {R Q : Type} (backend : Call → HttpOperationResponse R)
    (buildQueue : R → Option Q) (marker : Option String) (maxPageSize : Option Int) :
    Nat → Except JsError (List (EntitiesResponse Q)) × List Call
  | 0 => (.ok [], [])
  | fuel + 1 =>
    let call := listCall (jsNumberOfMarker marker) maxPageSize
    match listQueues backend buildQueue (jsNumberOfMarker marker) maxPageSize with
    | .error e => (.error e, [call])
    | .ok listResponse =>
      if jsStrOptTruthy listResponse.continuationToken then
        let next :=
          listQueuesPage backend buildQueue listResponse.continuationToken maxPageSize fuel
        (next.1.map (fun pages => listResponse :: pages), call :: next.2)
      else (.ok [listResponse], [call])

/-- Source `listQueuesAll` inlined with `listQueuesPage`: the flat-mode generator
drives the page generator (`for await (const segment of listQueuesPage(...))`)
and re-yields each segment's elements (`yield* segment`) before the next page
is requested.  The marker and page-size parameters are the ones handed to the
inner page generator; the shipped `listQueuesAll` starts them both absent. -/
def listQueuesAllLoop {R Q : Type} (backend : Call → HttpOperationResponse R)
    (buildQueue : R → Option Q) (marker : Option String) (maxPageSize : Option Int) :
    Nat → Except JsError (List Q) × List Call
  | 0 => (.ok [], [])
  | fuel + 1 =>
    let call := listCall (jsNumberOfMarker marker) maxPageSize
    match listQueues backend buildQueue (jsNumberOfMarker marker) maxPageSize with
    | .error e => (.error e, [call])
    | .ok segment =>
      if jsStrOptTruthy segment.continuationToken then
        let next :=
          listQueuesAllLoop backend buildQueue segment.continuationToken maxPageSize fuel
        (next.1.map (fun qs => segment.entities ++ qs), call :: next.2)
      else (.ok segment.entities, [call])

/-- Source `listQueuesAll`: flat iteration starts with an undefined marker and no
page-size hint (the flat path passes only `OperationOptions` down). -/
def listQueuesAll {R Q : Type} (backend : Call → HttpOperationResponse R)
    (buildQueue : R → Option Q) (fuel : Nat) :
    Except JsError (List Q) × List Call :=
  listQueuesAllLoop backend buildQueue none none fuel

/-- A JavaScript value as `byPage`'s `settings.continuationToken` can receive
it: undefined, null, a string, a number (`none` = NaN), a boolean, or some
other object. -/
inductive JsVal where
  | undef
  | nullv
  | str (s : String)
  | num (n : Option Int)
  | bool (b : Bool)
  | obj
deriving DecidableEq, Repr

/-- String interpolation of a `JsVal` (for the validation error message). -/
def jsValDisplay : JsVal → String
  | .undef => "undefined"
  | .nullv => "null"
  | .str s => s
  | .num none => "NaN"
  | .num (some n) => toString n
  | .bool b => if b then "true" else "false"
  | .obj => "[object Object]"

/-- Source `PageSettings` as `byPage` reads it. -/
structure PageSettings where
  continuationToken : JsVal := .undef
  maxPageSize : Option Int := none

/-- Source `throwIfInvalidContinuationToken`: a token is accepted when it is
`undefined`, or a string with `Number(token) >= 0` (NaN compares false);
anything else throws a plain `Error` synchronously. -/
def throwIfInvalidContinuationToken (token : JsVal) : Except JsError Unit :=
  let valid : Bool :=
    match token with
    | .undef => true
    | .str s =>
      match jsNumberOfString s with
      | some n => decide (0 ≤ n)
      | none => false
    | _ => false
  if valid then .ok ()
  else .error (.jsError ("Invalid continuationToken " ++ jsValDisplay token ++ " provided"))

/-- The validated token as the `string | undefined` marker handed to
`listQueuesPage` (non-string non-undefined values never reach this point). -/
def jsValToMarker : JsVal → Option String
  | .str s => some s
  | _ => none

/-- Source `getQueues(...).byPage(settings)`: validate the continuation token
synchronously — before the lazy page generator is created, so on a rejected
token no call reaches the transport — then iterate `listQueuesPage` from the
supplied token with the supplied page size. -/
def getQueues_byPage {R Q : Type} (backend : Call → HttpOperationResponse R)
    (buildQueue : R → Option Q) (settings : PageSettings) (fuel : Nat) :
    Except JsError (List (EntitiesResponse Q)) × List Call :=
  match throwIfInvalidContinuationToken settings.continuationToken with
  | .error e => (.error e, [])
  | .ok _ =>
    listQueuesPage backend buildQueue (jsValToMarker settings.continuationToken)
      settings.maxPageSize fuel

/-- Source `getQueues(...)` used directly as an async iterator: it delegates to
`listQueuesAll`. -/
def getQueues_flat {R Q : Type} (backend : Call → HttpOperationResponse R)
    (buildQueue : R → Option Q) (fuel : Nat) :
    Except JsError (List Q) × List Call :=
  listQueuesAll backend buildQueue fuel

/-- Source `queueExists`: run the underlying `getQueue` (its outcome is the abstract
`getQueueResult`); succeed with `true` on success, with `false` when the
caught error's `code` equals `"MessageEntityNotFoundError"`, and rethrow any
other error unchanged. -/
def queueExists {Q : Type} (getQueueResult : Except JsError Q) : Except JsError Bool :=
  match getQueueResult with
  | .ok _ => .ok true
  | .error e =>
    if jsErrorCode e = some "MessageEntityNotFoundError" then .ok false else .error e

/-- Source `topicExists`: same try/catch shape as `queueExists` around `getTopic`. -/
def topicExists {Q : Type} (getTopicResult : Except JsError Q) : Except JsError Bool :=
  match getTopicResult with
  | .ok _ => .ok true
  | .error e =>
    if jsErrorCode e = some "MessageEntityNotFoundError" then .ok false else .error e

/-- Source `subscriptionExists`: same try/catch shape around `getSubscription`. -/
def subscriptionExists {Q : Type} (getSubscriptionResult : Except JsError Q) :
    Except JsError Bool :=
  match getSubscriptionResult with
  | .ok _ => .ok true
  | .error e =>
    if jsErrorCode e = some "MessageEntityNotFoundError" then .ok false else .error e

/-- The properties of an `update*` description argument that its validation
reads: each is `none` when absent or undefined (`some ""` is an empty string,
which is also falsy). -/
structure DescrFields where
  name : Option String := none
  topicName : Option String := none
  subscriptionName : Option String := none
deriving DecidableEq

/-- A JavaScript value as an `update*` description argument: undefined, null,
a primitive (string/number/boolean), an array, or a plain object; the last two
carry the fields the validation reads. -/
inductive JsArg where
  | undef
  | nullv
  | prim
  | arrv (fields : DescrFields)
  | objv (fields : DescrFields)
deriving DecidableEq

/-- Modelled from the spec: `isJSONLikeObject` is imported from
`./util/utils`, which is not among the sources.  Its call sites pair it with
an explicit null check (`!isJSONLikeObject(x) || x == null`), so it is
modelled as the JS `typeof value === "object"` test: true of objects, arrays
and null, false of primitives and undefined. -/
def isJSONLikeObject : JsArg → Bool
  | .nullv => true
  | .arrv _ => true
  | .objv _ => true
  | _ => false

/-- JS loose equality `x == null`: true of null and undefined. -/
def looseEqNull : JsArg → Bool
  | .undef => true
  | .nullv => true
  | _ => false

/-- JS strict equality `x === null`: true of null only. -/
def strictEqNull : JsArg → Bool
  | .nullv => true
  | _ => false

/-- Property lookup on a description argument; on values with no properties
the fields all read as undefined. -/
def fieldsOf : JsArg → DescrFields
  | .arrv fields => fields
  | .objv fields => fields
  | _ => {}

/-- Source `getSubscriptionPath`. -/
def getSubscriptionPath (topicName subscriptionName : String) : String :=
  topicName ++ "/Subscriptions/" ++ subscriptionName

/-- Source `getRulePath`. -/
def getRulePath (topicName subscriptionName ruleName : String) : String :=
  topicName ++ "/Subscriptions/" ++ subscriptionName ++ "/Rules/" ++ ruleName

/-- Source `updateQueue`: validate the argument synchronously (a non-object or
null/undefined argument, then a falsy `name`, each throw a TypeError), and
only then issue the PUT.  `putResource` is the abstract request; the second
component records the path of the request issued, `none` when no request was
sent. -/
def updateQueue {Q : Type} (putResource : String → Except JsError Q) (queue : JsArg) :
    Except JsError Q × Option String :=
  if !(isJSONLikeObject queue) || looseEqNull queue then
    (.error (.typeError "Parameter \"queue\" must be an object of type \"QueueDescription\" and cannot be undefined or null."),
      none)
  else if !(jsStrOptTruthy (fieldsOf queue).name) then
    (.error (.typeError "\"name\" attribute of the parameter \"queue\" cannot be undefined."),
      none)
  else
    let path := ((fieldsOf queue).name).getD ""
    (putResource path, some path)

/-- Source `updateTopic`: same validation shape as `updateQueue`. -/
def updateTopic {Q : Type} (putResource : String → Except JsError Q) (topic : JsArg) :
    Except JsError Q × Option String :=
  if !(isJSONLikeObject topic) || looseEqNull topic then
    (.error (.typeError "Parameter \"topic\" must be an object of type \"TopicDescription\" and cannot be undefined or null."),
      none)
  else if !(jsStrOptTruthy (fieldsOf topic).name) then
    (.error (.typeError "\"name\" attribute of the parameter \"topic\" cannot be undefined."),
      none)
  else
    let path := ((fieldsOf topic).name).getD ""
    (putResource path, some path)

/-- Source `updateSubscription`: requires an object argument and truthy `topicName`
and `subscriptionName` fields before issuing the PUT at the subscription
path. -/
def updateSubscription {Q : Type} (putResource : String → Except JsError Q)
    (subscription : JsArg) : Except JsError Q × Option String :=
  if !(isJSONLikeObject subscription) || looseEqNull subscription then
    (.error (.typeError "Parameter \"subscription\" must be an object of type \"SubscriptionDescription\" and cannot be undefined or null."),
      none)
  else if !(jsStrOptTruthy (fieldsOf subscription).topicName)
      || !(jsStrOptTruthy (fieldsOf subscription).subscriptionName) then
    (.error (.typeError "The attributes \"topicName\" and \"subscriptionName\" of the parameter \"subscription\" cannot be undefined."),
      none)
  else
    let path :=
      getSubscriptionPath (((fieldsOf subscription).topicName).getD "")
        (((fieldsOf subscription).subscriptionName).getD "")
    (putResource path, some path)

/-- Source `updateRule`: requires an object argument (null tested strictly here) and
a truthy `name` before issuing the PUT at the rule path. -/
def updateRule {Q : Type} (putResource : String → Except JsError Q)
    (topicName subscriptionName : String) (rule : JsArg) :
    Except JsError Q × Option String :=
  if !(isJSONLikeObject rule) || strictEqNull rule then
    (.error (.typeError "Parameter \"rule\" must be an object of type \"RuleDescription\" and cannot be undefined or null."),
      none)
  else if !(jsStrOptTruthy (fieldsOf rule).name) then
    (.error (.typeError "\"name\" attribute of the parameter \"rule\" cannot be undefined."),
      none)
  else
    let path := getRulePath topicName subscriptionName (((fieldsOf rule).name).getD "")
    (putResource path, some path)

/-- Equality of `Except` results is decidable, so witnesses can evaluate the
model on concrete inputs. -/
instance {e a : Type} [DecidableEq e] [DecidableEq a] : DecidableEq (Except e a)
  | .ok x, .ok y => if h : x = y then .isTrue (by rw [h]) else .isFalse (by simp [h])
  | .ok _, .error _ => .isFalse (by simp)
  | .error _, .ok _ => .isFalse (by simp)
  | .error x, .error y => if h : x = y then .isTrue (by rw [h]) else .isFalse (by simp [h])

/-- A deterministic fake backend over five records, paged in twos as the
spec's worked example: the window at `$skip` absent is `[0, 1]` with next link
at skip 2, at `"2"` it is `[2, 3]` with next link at skip 4, at `"4"` it is
`[4]` with no next link. -/
def pagedBackend : Call → HttpOperationResponse Nat := fun c =>
  match c.skipParam with
  | none => ⟨.arr [0, 1] (some "https://host/Queues?$skip=2"), 200⟩
  | some "2" => ⟨.arr [2, 3] (some "https://host/Queues?$skip=4"), 200⟩
  | some "4" => ⟨.arr [4] none, 200⟩
  | some _ => ⟨.arr [] none, 200⟩

/-- A deterministic backend whose only page is empty with no next link. -/
def emptyBackend : Call → HttpOperationResponse Nat := fun _ => ⟨.arr [] none, 200⟩

/-- The identity record decoder used by concrete examples. -/
def decodeId : Nat → Option Nat := fun n => some n

/-- C1: for every deterministic page fetcher, record decoder, starting marker,
page size and number of pages consumed, flat-mode iteration yields exactly the
concatenation, in order, of the element sequences of the pages that page-mode
iteration yields over the same fetcher; in particular `getQueues` used as a
flat iterator agrees with the concatenation of its `byPage()` pages at the
default settings. -/
theorem listQueuesAll_eq_concat_byPage {R Q : Type}
    (backend : Call → HttpOperationResponse R) (buildQueue : R → Option Q)
    (marker : Option String) (maxPageSize : Option Int) (fuel : Nat) :
    (listQueuesAllLoop backend buildQueue marker maxPageSize fuel).1
      = (listQueuesPage backend buildQueue marker maxPageSize fuel).1.map
          (fun pages => (pages.map EntitiesResponse.entities).flatten)
    ∧ (getQueues_flat backend buildQueue fuel).1
      = (getQueues_byPage backend buildQueue {} fuel).1.map
          (fun pages => (pages.map EntitiesResponse.entities).flatten) := by
  have main : ∀ (f : Nat) (m : Option String) (mp : Option Int),
      (listQueuesAllLoop backend buildQueue m mp f).1
        = (listQueuesPage backend buildQueue m mp f).1.map
            (fun pages => (pages.map EntitiesResponse.entities).flatten) := by
    intro f
    induction f with
    | zero => intro m mp; simp [listQueuesAllLoop, listQueuesPage, Except.map]
    | succ n ih =>
      intro m mp
      simp only [listQueuesAllLoop, listQueuesPage]
      cases h : listQueues backend buildQueue (jsNumberOfMarker m) mp with
      | error e => simp [Except.map]
      | ok seg =>
        cases ht : jsStrOptTruthy seg.continuationToken with
        | false => simp [ht, Except.map]
        | true =>
          simp only [ht, if_true]
          rw [ih seg.continuationToken mp]
          cases hnext : (listQueuesPage backend buildQueue seg.continuationToken mp n).1 with
          | error e => simp [Except.map]
          | ok ps => simp [Except.map]
  refine ⟨main fuel marker maxPageSize, ?_⟩
  simpa [getQueues_flat, listQueuesAll, getQueues_byPage,
    throwIfInvalidContinuationToken, jsValToMarker] using main fuel none none

/-- A continuation token the spec accepts: `undefined`, or a string whose JS
numeric value is at least 0. -/
def claimValidToken (tok : JsVal) : Prop :=
  tok = .undef ∨ ∃ s n, tok = .str s ∧ jsNumberOfString s = some n ∧ 0 ≤ n

/-- The synchronous validation accepts exactly the spec's tokens. -/
theorem throwIfInvalid_ok_iff (tok : JsVal) :
    throwIfInvalidContinuationToken tok = .ok () ↔ claimValidToken tok := by
  cases tok with
  | undef => simp [throwIfInvalidContinuationToken, claimValidToken]
  | str s =>
    cases hn : jsNumberOfString s with
    | none =>
      simp only [throwIfInvalidContinuationToken, hn, claimValidToken]
      simp [hn]
    | some n =>
      by_cases h0 : 0 ≤ n
      · simp [throwIfInvalidContinuationToken, hn, claimValidToken, h0]
      · simp only [throwIfInvalidContinuationToken, hn, claimValidToken]
        simp [hn, h0]
  | nullv => simp [throwIfInvalidContinuationToken, claimValidToken]
  | num n => simp [throwIfInvalidContinuationToken, claimValidToken]
  | bool b => simp [throwIfInvalidContinuationToken, claimValidToken]
  | obj => simp [throwIfInvalidContinuationToken, claimValidToken]

/-- A rejected token produces exactly the usage error. -/
theorem throwIfInvalid_error_of_not_valid (tok : JsVal) (h : ¬ claimValidToken tok) :
    throwIfInvalidContinuationToken tok
      = .error (.jsError ("Invalid continuationToken " ++ jsValDisplay tok ++ " provided")) := by
  cases tok with
  | undef => exact absurd (Or.inl rfl) h
  | str s =>
    cases hn : jsNumberOfString s with
    | none => simp [throwIfInvalidContinuationToken, hn]
    | some n =>
      have h0 : ¬ (0 ≤ n) := fun h0 => h (Or.inr ⟨s, n, rfl, hn, h0⟩)
      simp [throwIfInvalidContinuationToken, hn, h0]
  | nullv => simp [throwIfInvalidContinuationToken]
  | num n => simp [throwIfInvalidContinuationToken]
  | bool b => simp [throwIfInvalidContinuationToken]
  | obj => simp [throwIfInvalidContinuationToken]

/-- C2: `byPage` rejects a supplied continuation token synchronously — the
result is the plain usage `Error` and no call reaches the transport — exactly
when the token is neither `undefined` nor a string with numeric value at
least 0; an accepted token proceeds to the page loop from that token, and
`undefined` starts from offset 0: the first transport call carries no `$skip`
parameter. -/
theorem byPage_token_validation {R Q : Type}
    (backend : Call → HttpOperationResponse R) (buildQueue : R → Option Q)
    (tok : JsVal) (top : Option Int) (fuel : Nat) :
    (¬ claimValidToken tok →
      getQueues_byPage backend buildQueue ⟨tok, top⟩ fuel
        = (.error (.jsError ("Invalid continuationToken " ++ jsValDisplay tok ++ " provided")), []))
    ∧ (claimValidToken tok →
      getQueues_byPage backend buildQueue ⟨tok, top⟩ fuel
        = listQueuesPage backend buildQueue (jsValToMarker tok) top fuel)
    ∧ (0 < fuel →
      List.head? (getQueues_byPage backend buildQueue ⟨.undef, top⟩ fuel).2
        = some (listCall none top)) := by
  refine ⟨fun h => ?_, fun h => ?_, fun hf => ?_⟩
  · simp [getQueues_byPage, throwIfInvalid_error_of_not_valid tok h]
  · have := (throwIfInvalid_ok_iff tok).mpr h
    simp [getQueues_byPage, this]
  · have hval : throwIfInvalidContinuationToken JsVal.undef = .ok () := rfl
    obtain ⟨f, rfl⟩ : ∃ f, fuel = f + 1 := ⟨fuel - 1, by omega⟩
    simp only [getQueues_byPage, hval, jsValToMarker, listQueuesPage]
    cases h : listQueues backend buildQueue (jsNumberOfMarker none) top with
    | error e => simp [jsNumberOfMarker]
    | ok page =>
      cases ht : jsStrOptTruthy page.continuationToken with
      | false => simp [ht, jsNumberOfMarker]
      | true => simp [ht, jsNumberOfMarker]

/-- C2 witness: the concrete tokens of the spec — `"-1"`, `"abc"` and the
non-string truthy number 5 are rejected with no transport call; `undefined`
is accepted and the one call of the first page carries no `$skip`. -/
theorem byPage_token_validation_witness :
    getQueues_byPage emptyBackend decodeId ⟨.str "-1", none⟩ 3
      = (.error (.jsError "Invalid continuationToken -1 provided"), [])
    ∧ getQueues_byPage emptyBackend decodeId ⟨.str "abc", none⟩ 3
      = (.error (.jsError "Invalid continuationToken abc provided"), [])
    ∧ getQueues_byPage emptyBackend decodeId ⟨.num (some 5), none⟩ 3
      = (.error (.jsError "Invalid continuationToken 5 provided"), [])
    ∧ List.head? (getQueues_byPage emptyBackend decodeId ⟨.undef, none⟩ 3).2
      = some (listCall none none) := by
  have hm1 : ¬ claimValidToken (.str "-1") := by
    rintro (h | ⟨s, n, hs, hn, hnn⟩)
    · cases h
    · cases hs
      rw [show jsNumberOfString "-1" = some (-1) from by decide] at hn
      cases hn
      exact absurd hnn (by decide)
  have habc : ¬ claimValidToken (.str "abc") := by
    rintro (h | ⟨s, n, hs, hn, hnn⟩)
    · cases h
    · cases hs
      rw [show jsNumberOfString "abc" = none from by decide] at hn
      cases hn
  have hnum : ¬ claimValidToken (.num (some 5)) := by
    rintro (h | ⟨s, n, hs, hn, hnn⟩)
    · cases h
    · cases hs
  refine ⟨?_, ?_, ?_, ?_⟩
  · exact (byPage_token_validation emptyBackend decodeId (.str "-1") none 3).1 hm1
  · exact (byPage_token_validation emptyBackend decodeId (.str "abc") none 3).1 habc
  · exact (byPage_token_validation emptyBackend decodeId (.num (some 5)) none 3).1 hnum
  · exact (byPage_token_validation emptyBackend decodeId JsVal.undef none 3).2.2 (by decide)

/-- C3: when the page fetched at the current marker carries no continuation
token, the page generator yields that page and terminates — exactly one
transport call is made, `byPage` yields no further pages, and flat-mode
iteration ends after re-emitting that page's elements. -/
theorem page_without_token_terminates {R Q : Type}
    (backend : Call → HttpOperationResponse R) (buildQueue : R → Option Q)
    (marker : Option String) (top : Option Int) (fuel : Nat)
    (page : EntitiesResponse Q)
    (hfetch : listQueues backend buildQueue (jsNumberOfMarker marker) top = .ok page)
    (htok : page.continuationToken = none) :
    listQueuesPage backend buildQueue marker top (fuel + 1)
      = (.ok [page], [listCall (jsNumberOfMarker marker) top])
    ∧ listQueuesAllLoop backend buildQueue marker top (fuel + 1)
      = (.ok page.entities, [listCall (jsNumberOfMarker marker) top]) := by
  constructor
  · simp [listQueuesPage, hfetch, jsStrOptTruthy, htok]
  · simp [listQueuesAllLoop, hfetch, jsStrOptTruthy, htok]

/-- C3 witness: a backend whose only page is `[1, 2]` with no next link is
fetched once; `byPage` yields the single page and flat mode its elements. -/
theorem page_without_token_terminates_witness :
    listQueuesPage (fun _ => (⟨.arr [1, 2] none, 200⟩ : HttpOperationResponse Nat))
        decodeId none none 4
      = (.ok [⟨[1, 2], none⟩], [listCall none none])
    ∧ listQueuesAllLoop (fun _ => (⟨.arr [1, 2] none, 200⟩ : HttpOperationResponse Nat))
        decodeId none none 4
      = (.ok [1, 2], [listCall none none]) :=
  page_without_token_terminates (fun _ => ⟨.arr [1, 2] none, 200⟩) decodeId none none 3
    ⟨[1, 2], none⟩ (by decide) rfl

/-- Resuming the page loop from the token of the page at index `k` of a run
reproduces exactly the pages after index `k` of that run: the loop's only
state is the marker, which the token re-derives. -/
theorem listQueuesPage_resume {R Q : Type}
    (backend : Call → HttpOperationResponse R) (buildQueue : R → Option Q)
    (top : Option Int) :
    ∀ (fuel : Nat) (marker : Option String) (pages : List (EntitiesResponse Q))
      (k : Nat) (hk : k < pages.length) (t : String),
      (listQueuesPage backend buildQueue marker top fuel).1 = .ok pages →
      (pages.get ⟨k, hk⟩).continuationToken = some t → t ≠ "" →
      (listQueuesPage backend buildQueue (some t) top (fuel - (k + 1))).1
        = .ok (List.drop (k + 1) pages) := by
  intro fuel
  induction fuel with
  | zero =>
    intro marker pages k hk t hrun
    simp only [listQueuesPage] at hrun
    cases hrun
    simp at hk
  | succ n ih =>
    intro marker pages k hk t hrun htok hne
    simp only [listQueuesPage] at hrun
    cases h : listQueues backend buildQueue (jsNumberOfMarker marker) top with
    | error e => rw [h] at hrun; cases hrun
    | ok page =>
      rw [h] at hrun
      dsimp only at hrun
      cases ht : jsStrOptTruthy page.continuationToken with
      | false =>
        rw [ht] at hrun
        simp only [Bool.false_eq_true, if_false] at hrun
        cases hrun
        have hk0 : k = 0 := by simp at hk; omega
        subst hk0
        simp only [List.get] at htok
        rw [htok] at ht
        simp [jsStrOptTruthy, hne] at ht
      | true =>
        rw [ht] at hrun
        simp only [if_true] at hrun
        cases hnext : (listQueuesPage backend buildQueue page.continuationToken top n).1 with
        | error e => rw [hnext] at hrun; cases hrun
        | ok rest =>
          rw [hnext] at hrun
          simp only [Except.map] at hrun
          cases hrun
          cases k with
          | zero =>
            simp only [List.get] at htok
            rw [htok] at hnext
            simpa using hnext
          | succ k' =>
            have hk' : k' < rest.length := by simpa using hk
            have := ih page.continuationToken rest k' hk' t hnext (by simpa using htok) hne
            simpa [Nat.succ_sub_succ] using this

/-- C4: against the same deterministic backend, resuming `byPage` from the
continuation token captured with the page at index `k` of an uninterrupted run
(a token conforming to the wire contract: a truthy string whose numeric value
is at least 0, so the client-side validation accepts it) yields exactly the
pages the uninterrupted run produced after that page — the consumed prefix is
skipped and nothing else. -/
theorem byPage_resume_reproduces_suffix {R Q : Type}
    (backend : Call → HttpOperationResponse R) (buildQueue : R → Option Q)
    (top : Option Int) (fuel : Nat) (pages : List (EntitiesResponse Q))
    (k : Nat) (t : String) (n : Int)
    (hrun : (getQueues_byPage backend buildQueue ⟨.undef, top⟩ fuel).1 = .ok pages)
    (hk : k < pages.length)
    (htok : (pages.get ⟨k, hk⟩).continuationToken = some t)
    (hne : t ≠ "")
    (hnum : jsNumberOfString t = some n) (hpos : 0 ≤ n) :
    (getQueues_byPage backend buildQueue ⟨.str t, top⟩ (fuel - (k + 1))).1
      = .ok (pages.drop (k + 1)) := by
  have hval : throwIfInvalidContinuationToken (.str t) = .ok () :=
    (throwIfInvalid_ok_iff (.str t)).mpr (Or.inr ⟨t, n, rfl, hnum, hpos⟩)
  have hrun' : (listQueuesPage backend buildQueue none top fuel).1 = .ok pages := by
    simpa [getQueues_byPage, throwIfInvalidContinuationToken, jsValToMarker] using hrun
  have := listQueuesPage_resume backend buildQueue top fuel none pages k hk t hrun' htok hne
  simpa [getQueues_byPage, hval, jsValToMarker] using this

/-- C4 witness: over the five-record demo backend, the full run's pages are
`[0,1] / [2,3] / [4]` with tokens `"2"`, `"4"`, absent; resuming from the
first page's token `"2"` reproduces exactly the last two pages. -/
theorem byPage_resume_reproduces_suffix_witness :
    (getQueues_byPage pagedBackend decodeId ⟨.str "2", none⟩ 2).1
      = .ok [⟨[2, 3], some "4"⟩, ⟨[4], none⟩] :=
  byPage_resume_reproduces_suffix pagedBackend decodeId none 3
    [⟨[0, 1], some "2"⟩, ⟨[2, 3], some "4"⟩, ⟨[4], none⟩] 0 "2" 2
    (by decide) (by decide) (by decide) (by decide) (by decide) (by decide)

/-- C5: a listing response whose body is the plain empty array decodes to a
single empty page with no continuation token, and the page loop then ends
after that one fetch with no error; whereas the single-entity `getResource`
path promotes an undefined body or an empty-array body to a `RestError` with
code `MessageEntityNotFoundError` and status 404. -/
theorem empty_listing_page_vs_get_not_found {R Q : Type}
    (buildQueue : R → Option Q) (status st2 : Nat) (name : String)
    (marker : Option String) (top : Option Int) (fuel : Nat) (body : Body R)
    (hbody : body = .undef ∨ ∃ nl, body = .arr [] nl) :
    buildListQueuesResponse buildQueue (⟨.arr [] none, status⟩ : HttpOperationResponse R)
      = .ok ⟨[], none⟩
    ∧ listQueuesPage (fun _ => (⟨.arr [] none, status⟩ : HttpOperationResponse R))
        buildQueue marker top (fuel + 1)
      = (.ok [⟨[], none⟩], [listCall (jsNumberOfMarker marker) top])
    ∧ getResource name (⟨body, st2⟩ : HttpOperationResponse R)
      = .error (.restError (entityNotFoundMsg name) "MessageEntityNotFoundError" 404) := by
  have hone : buildListQueuesResponse buildQueue
      (⟨.arr [] none, status⟩ : HttpOperationResponse R) = .ok ⟨[], none⟩ := by
    simp [buildListQueuesResponse, getMarkerFromNextLinkUrl]
  refine ⟨hone, ?_, ?_⟩
  · simp [listQueuesPage, listQueues, listResources, hone, jsStrOptTruthy]
  · rcases hbody with h | ⟨nl, h⟩ <;> subst h <;> simp [getResource]

/-- C5 witness: at the concrete empty backend and entity name "q1". -/
theorem empty_listing_page_vs_get_not_found_witness :
    buildListQueuesResponse decodeId (⟨.arr [] none, 200⟩ : HttpOperationResponse Nat)
      = .ok ⟨[], none⟩
    ∧ listQueuesPage (fun _ => (⟨.arr [] none, 200⟩ : HttpOperationResponse Nat))
        decodeId none none 1
      = (.ok [⟨[], none⟩], [listCall none none])
    ∧ getResource "q1" (⟨.arr [] none, 200⟩ : HttpOperationResponse Nat)
      = .error (.restError (entityNotFoundMsg "q1") "MessageEntityNotFoundError" 404) :=
  empty_listing_page_vs_get_not_found decodeId 200 200 "q1" none none 0 (.arr [] none)
    (Or.inr ⟨none, rfl⟩)

/-- C6: a listing response whose parsed body is not an array — an undefined
body (reading its `nextLink` throws) or a non-array object (the
`Array.isArray` guard throws) — is rethrown as a `RestError` with code
`PARSE_ERROR` carrying the original HTTP status. -/
theorem nonarray_listing_parse_error {R Q : Type} (buildQueue : R → Option Q)
    (resp : HttpOperationResponse R)
    (h : ∀ records nextLink, resp.parsedBody ≠ Body.arr records nextLink) :
    buildListQueuesResponse buildQueue resp
      = .error (.restError listQueuesParseMsg PARSE_ERROR resp.status) := by
  obtain ⟨body, st⟩ := resp
  cases body with
  | undef => simp [buildListQueuesResponse]
  | obj nl => simp [buildListQueuesResponse]
  | arr records nl => exact absurd rfl (h records nl)

/-- C6 witness: a 503 response with a non-array object body raises the parse
error carrying status 503. -/
theorem nonarray_listing_parse_error_witness :
    buildListQueuesResponse decodeId (⟨.obj none, 503⟩ : HttpOperationResponse Nat)
      = .error (.restError listQueuesParseMsg PARSE_ERROR 503) :=
  nonarray_listing_parse_error decodeId ⟨.obj none, 503⟩ (fun _ _ h => by cases h)

/-- The record-collecting loop of the list decoders is `List.filterMap`:
records the decoder rejects are dropped, the rest keep their order. -/
theorem foldl_push_eq_filterMap {R Q : Type} (f : R → Option Q) :
    ∀ (records : List R) (acc : List Q),
      records.foldl
          (fun acc r =>
            match f r with
            | some q => acc ++ [q]
            | none => acc)
          acc
        = acc ++ records.filterMap f := by
  intro records
  induction records with
  | nil => intro acc; simp
  | cons r rs ih =>
    intro acc
    cases hf : f r <;> simp [hf, ih, List.filterMap_cons]

/-- C7: within one array-bodied listing response, exactly the records the
per-record decoder rejects are dropped, the decoded rest appearing in their
original relative order (`filterMap`); such a response never fails as a
whole — for `buildListQueuesResponse` and `buildListRulesResponse` alike —
and the whole page fails exactly when the top-level body is not an array. -/
theorem per_record_decode_failures_dropped {R Q R2 Q2 : Type}
    (buildQueue : R → Option Q) (buildRule : R2 → Option Q2)
    (records : List R) (rawRules : List R2) (nl nl2 : Option String) (st st2 : Nat)
    (resp : HttpOperationResponse R) :
    buildListQueuesResponse buildQueue (⟨.arr records nl, st⟩ : HttpOperationResponse R)
      = .ok ⟨records.filterMap buildQueue, getMarkerFromNextLinkUrl nl⟩
    ∧ buildListRulesResponse buildRule (⟨.arr rawRules nl2, st2⟩ : HttpOperationResponse R2)
      = .ok ⟨rawRules.filterMap buildRule, getMarkerFromNextLinkUrl nl2⟩
    ∧ ((∃ page, buildListQueuesResponse buildQueue resp = .ok page)
        ↔ ∃ rs l, resp.parsedBody = .arr rs l) := by
  refine ⟨?_, ?_, ?_⟩
  · simp [buildListQueuesResponse, foldl_push_eq_filterMap]
  · simp [buildListRulesResponse, foldl_push_eq_filterMap]
  · obtain ⟨body, s⟩ := resp
    cases body <;> simp [buildListQueuesResponse]

/-- C8 (amended): the continuation token of a decoded listing page equals the
value of the `$skip` query parameter extracted from the response's next-link
URL, and is absent when the response carries no next link; the code attaches
that value verbatim, with no check that it is numeric. -/
theorem continuationToken_from_nextLink {R Q : Type} (buildQueue : R → Option Q)
    (records : List R) (nl : Option String) (st : Nat) (page : EntitiesResponse Q)
    (h : buildListQueuesResponse buildQueue (⟨.arr records nl, st⟩ : HttpOperationResponse R)
      = .ok page) :
    page.continuationToken = getMarkerFromNextLinkUrl nl
    ∧ (nl = none → page.continuationToken = none) := by
  have : page = ⟨records.foldl
      (fun acc r => match buildQueue r with
        | some q => acc ++ [q]
        | none => acc) [],
      getMarkerFromNextLinkUrl nl⟩ := by
    have h' := h
    simp only [buildListQueuesResponse] at h'
    cases h'
    rfl
  subst this
  refine ⟨rfl, fun hnl => ?_⟩
  subst hnl
  rfl

/-- C8 witness: the demo first page's next link `...?$skip=2` produces the
token `"2"`. -/
theorem continuationToken_from_nextLink_witness :
    (⟨[0, 1], some "2"⟩ : EntitiesResponse Nat).continuationToken
        = getMarkerFromNextLinkUrl (some "https://host/Queues?$skip=2")
    ∧ (some "https://host/Queues?$skip=2" = none →
        (⟨[0, 1], some "2"⟩ : EntitiesResponse Nat).continuationToken = none) :=
  continuationToken_from_nextLink decodeId [0, 1] (some "https://host/Queues?$skip=2") 200
    ⟨[0, 1], some "2"⟩ (by decide)

/-- C8 counterexample: a listing response whose next link reads `$skip=abc`
yields the continuation token `"abc"`, and `Number("abc")` is `NaN`, so the
produced token does not decode to a non-negative integer — refuting the
claim that every produced token does. -/
theorem continuationToken_not_always_numeric :
    buildListQueuesResponse decodeId
        (⟨.arr [7] (some "https://host/Queues?$skip=abc"), 200⟩ : HttpOperationResponse Nat)
      = .ok ⟨[7], some "abc"⟩
    ∧ jsNumberOfString "abc" = none := by
  constructor
  · decide
  · decide

/-- C9: `queueExists`, `topicExists` and `subscriptionExists` return `false`
exactly when the underlying get raises an error whose `code` property equals
`"MessageEntityNotFoundError"`; a successful get returns `true`, and an error
with any other (or no) code propagates to the caller unchanged. -/
theorem exists_helpers_not_found_to_false {Q : Type} (r : Except JsError Q) :
    (queueExists r = .ok false
      ↔ ∃ e, r = .error e ∧ jsErrorCode e = some "MessageEntityNotFoundError")
    ∧ (∀ q, r = .ok q → queueExists r = .ok true)
    ∧ (∀ e, r = .error e → jsErrorCode e ≠ some "MessageEntityNotFoundError" →
        queueExists r = .error e)
    ∧ topicExists r = queueExists r
    ∧ subscriptionExists r = queueExists r := by
  refine ⟨?_, ?_, ?_, ?_, ?_⟩
  · cases r with
    | ok q => simp [queueExists]
    | error e =>
      by_cases hc : jsErrorCode e = some "MessageEntityNotFoundError" <;>
        simp [queueExists, hc]
  · rintro q rfl; rfl
  · rintro e rfl hc
    simp [queueExists, hc]
  · cases r <;> rfl
  · cases r <;> rfl

/-- C9 witness: a not-found RestError yields `false`, a success yields `true`,
and a `ServerBusyError` propagates unchanged, for all three helpers. -/
theorem exists_helpers_not_found_to_false_witness :
    queueExists (.error (.restError "m" "MessageEntityNotFoundError" 404) : Except JsError Nat)
      = .ok false
    ∧ queueExists (.ok 7 : Except JsError Nat) = .ok true
    ∧ topicExists (.error (.restError "m" "ServerBusyError" 503) : Except JsError Nat)
      = .error (.restError "m" "ServerBusyError" 503)
    ∧ subscriptionExists (.error (.restError "m" "MessageEntityNotFoundError" 404) : Except JsError Nat)
      = .ok false := by
  have h1 := (exists_helpers_not_found_to_false
    (.error (.restError "m" "MessageEntityNotFoundError" 404) : Except JsError Nat)).1
  have h2 := (exists_helpers_not_found_to_false (.ok 7 : Except JsError Nat)).2.1 7 rfl
  have h3 := (exists_helpers_not_found_to_false
    (.error (.restError "m" "ServerBusyError" 503) : Except JsError Nat)).2.2.1
    (.restError "m" "ServerBusyError" 503) rfl (by decide)
  have h4 := (exists_helpers_not_found_to_false
    (.error (.restError "m" "ServerBusyError" 503) : Except JsError Nat)).2.2.2.1
  have h5 := (exists_helpers_not_found_to_false
    (.error (.restError "m" "MessageEntityNotFoundError" 404) : Except JsError Nat)).2.2.2.2
  exact ⟨h1.mpr ⟨_, rfl, rfl⟩, h2, by rw [h4]; exact h3, by rw [h5]; exact h1.mpr ⟨_, rfl, rfl⟩⟩

/-- C10: each `update*` operation validates its description argument before
any request is issued: an argument that is not a JSON-like object (or is
null/undefined), or whose required name fields are absent — `name` for
queue, topic and rule, `topicName` and `subscriptionName` for subscription —
makes the call return a `TypeError` with no request sent (the recorded
request path is `none`, whatever the transport would do). -/
theorem update_validation_precedes_request {Q : Type}
    (put : String → Except JsError Q) (topicName subscriptionName : String) (arg : JsArg) :
    ((isJSONLikeObject arg = false ∨ (fieldsOf arg).name = none) →
      (∃ m, updateQueue put arg = (.error (.typeError m), none))
      ∧ (∃ m, updateTopic put arg = (.error (.typeError m), none))
      ∧ (∃ m, updateRule put topicName subscriptionName arg
            = (.error (.typeError m), none)))
    ∧ ((isJSONLikeObject arg = false
        ∨ (fieldsOf arg).topicName = none ∨ (fieldsOf arg).subscriptionName = none) →
      ∃ m, updateSubscription put arg = (.error (.typeError m), none)) := by
  constructor
  · rintro (h | h) <;> cases arg <;>
      refine ⟨?_, ?_, ?_⟩ <;>
        simp_all [updateQueue, updateTopic, updateRule, isJSONLikeObject,
          looseEqNull, strictEqNull, fieldsOf, jsStrOptTruthy]
  · rintro (h | h | h) <;> cases arg <;>
      simp_all [updateSubscription, isJSONLikeObject, looseEqNull, fieldsOf,
        jsStrOptTruthy]

/-- C10 witness: an undefined argument and an object missing its required
fields each produce a TypeError with no request recorded. -/
theorem update_validation_precedes_request_witness :
    (∃ m, updateQueue (fun _ => (.ok 0 : Except JsError Nat)) .undef
      = (.error (.typeError m), none))
    ∧ (∃ m, updateSubscription (fun _ => (.ok 0 : Except JsError Nat)) (.objv {})
      = (.error (.typeError m), none)) := by
  refine ⟨((update_validation_precedes_request (fun _ => (.ok 0 : Except JsError Nat))
    "t" "s" .undef).1 (Or.inl rfl)).1, ?_⟩
  exact (update_validation_precedes_request (fun _ => (.ok 0 : Except JsError Nat))
    "t" "s" (.objv {})).2 (Or.inr (Or.inl rfl))

end SB
